import Mathlib

/-
Shallow embedding of the Go side of the libpurple ↔ whatsmeow bridge
(src/whatsmeow_bridge.go).  The session registry (`accounts` map guarded by
`mu`), the five exported command functions, the QR pairing consumer
goroutine, and the message classification of `handleMessage` are translated
into pure Lean functions.  The whatsmeow engine (ParseJID, SendMessage,
connect/disconnect, the sqlite store) is external to the repository and is
modelled as parameters: a record of oracles (`Engine`) for parsing and send
outcomes, and a record of boolean outcomes (`LoginEnv`) for the fallible
setup steps of login.  Outward C callbacks (bridge_error,
bridge_show_qr_code, bridge_receive_message, ...) are modelled as values
returned by the functions.
-/

namespace WhatsmeowBridge

/-- A WhatsApp address (go.mau.fi/whatsmeow/types.JID) as seen at the bridge
boundary: user and server parts.  Only construction, equality and the zero
value matter to the bridge. -/
structure JID where
  user : String
  server : String
deriving DecidableEq, Repr

/-- The zero value of types.JID, produced by Go for `j, _ := ParseJID(s)`
when parsing fails (whatsmeow_bridge.go lines 240-241). -/
def emptyJID : JID := ⟨"", ""⟩

/-- accountState (whatsmeow_bridge.go lines 44-49) as the registry sees it.
`clientPresent` models `client != nil`; `whatsmeow.NewClient` never returns
nil, so every record the login path stores has `clientPresent = true`. -/
structure accountState where
  clientPresent : Bool
deriving DecidableEq, Repr

/-- The `accounts` map (line 53), keyed by the PurpleAccount pointer
(modelled as Nat).  An association list where `lookupAcct` returns the
first binding, matching Go map semantics given that login only inserts an
absent key and logout deletes all bindings of a key. -/
abbrev Registry := List (Nat × accountState)

/-- Go map read `accounts[key]`. -/
def lookupAcct : Registry → Nat → Option accountState
  | [], _ => none
  | (k, st) :: rest, key => if k = key then some st else lookupAcct rest key

/-- Go map write `accounts[key] = state` (line 104), only executed when the
key is absent. -/
def insertAcct (reg : Registry) (key : Nat) (st : accountState) : Registry :=
  (key, st) :: reg

/-- Go map delete `delete(accounts, key)` (line 156). -/
def removeAcct (reg : Registry) (key : Nat) : Registry :=
  reg.filter (fun p => p.1 != key)

/-- The number of records the registry holds for a key. -/
def countKey (reg : Registry) (key : Nat) : Nat :=
  (reg.filter (fun p => p.1 == key)).length

/-- The whatsmeow engine as a black box: `parseJID` models
types.ParseJID (None on malformed input), `sendMessageOk` models whether
client.SendMessage succeeds for a target and text. -/
structure Engine where
  parseJID : String → Option JID
  sendMessageOk : JID → String → Bool

/-- Outcomes of the fallible external steps of gowhatsapp_go_login:
sqlstore.New (line 81), container.GetFirstDevice (line 89), whether
client.Store.ID is non-nil (line 112), client.GetQRChannel (line 114) and
client.Connect (lines 119 and 140). -/
structure LoginEnv where
  storeOpenOk : Bool
  deviceFetchOk : Bool
  hasStoredID : Bool
  qrChannelOk : Bool
  connectOk : Bool
deriving DecidableEq, Repr

/-- What gowhatsapp_go_login returns and leaves behind: the C return code,
the registry after the call, and the reportError messages emitted. -/
structure LoginResult where
  ret : Int
  reg : Registry
  errors : List String
deriving DecidableEq, Repr

/-- Whether every setup step attempted after `accounts[key] = state`
(line 104) succeeds: GetQRChannel and Connect on the new-login branch
(lines 112-137), Connect alone on the resume branch (lines 138-144). -/
def loginSetupOkAfterInsert (env : LoginEnv) : Bool :=
  if env.hasStoredID then env.connectOk else env.qrChannelOk && env.connectOk

/-- gowhatsapp_go_login (whatsmeow_bridge.go lines 60-147).  The whole body
runs under `mu` (`mu.Lock(); defer mu.Unlock()`, lines 65-66); locking is
modelled separately by `loginTrace`.  Control flow:
already-present check (line 68), store open (line 81), device fetch
(line 89), insertion of the record (lines 97-104), then the QR / connect
branch.  Every failure calls reportError and returns -1; note that
failures after line 104 return with the record still in the map. -/
def gowhatsapp_go_login (reg : Registry) (env : LoginEnv) (key : Nat) : LoginResult :=
  if (lookupAcct reg key).isSome then
    ⟨-1, reg, []⟩
  else if !env.storeOpenOk then
    ⟨-1, reg, ["DB error"]⟩
  else if !env.deviceFetchOk then
    ⟨-1, reg, ["Device store error"]⟩
  else
    let reg1 := insertAcct reg key ⟨true⟩
    if !env.hasStoredID then
      if !env.qrChannelOk then ⟨-1, reg1, ["QR channel error"]⟩
      else if !env.connectOk then ⟨-1, reg1, ["Connect error"]⟩
      else ⟨0, reg1, []⟩
    else
      if !env.connectOk then ⟨-1, reg1, ["Reconnect error"]⟩
      else ⟨0, reg1, []⟩

/-- What gowhatsapp_go_logout leaves behind: the registry after the call,
whether the cancellation token was signalled (`state.cancel()`, line 161),
and how many engine Disconnect calls were made (line 162). -/
structure LogoutResult where
  reg : Registry
  cancelSignalled : Bool
  disconnectCalls : Nat
deriving DecidableEq, Repr

/-- gowhatsapp_go_logout (whatsmeow_bridge.go lines 149-164): under the
lock, look up and delete the record; outside the lock, when a record with a
non-nil client was found, signal cancellation and disconnect. -/
def gowhatsapp_go_logout (reg : Registry) (key : Nat) : LogoutResult :=
  match lookupAcct reg key with
  | none => ⟨reg, false, 0⟩
  | some st =>
    let reg1 := removeAcct reg key
    if st.clientPresent then ⟨reg1, true, 1⟩ else ⟨reg1, false, 0⟩

/-- What gowhatsapp_go_send_message returns and does: the C return code,
the reportError messages, and the engine SendMessage calls made
(target and text). -/
structure SendResult where
  ret : Int
  errors : List String
  engineSends : List (JID × String)
deriving DecidableEq, Repr

/-- gowhatsapp_go_send_message (whatsmeow_bridge.go lines 166-197): look up
the session under the lock (released before any engine call); return -1 if
absent or client nil; parse the target, reporting an error and returning -1
without any engine call on failure; otherwise call the engine once and
return 0 on success, -1 with an error report on engine failure. -/
def gowhatsapp_go_send_message (eng : Engine) (reg : Registry) (key : Nat)
    (jidStr text : String) : SendResult :=
  match lookupAcct reg key with
  | none => ⟨-1, [], []⟩
  | some st =>
    if !st.clientPresent then ⟨-1, [], []⟩
    else
      match eng.parseJID jidStr with
      | none => ⟨-1, ["Invalid JID " ++ jidStr], []⟩
      | some jid =>
        if eng.sendMessageOk jid text then ⟨0, [], [(jid, text)]⟩
        else ⟨-1, ["Send failed"], [(jid, text)]⟩

/-- The chat-presence states the bridge sends (types.ChatPresenceComposing
and types.ChatPresencePaused). -/
inductive ChatPresence where
  | composing
  | paused
deriving DecidableEq, Repr

/-- What gowhatsapp_go_send_typing does: the engine SendChatPresence calls
made, and the reportError messages (the function contains none). -/
structure TypingResult where
  presenceCalls : List (JID × ChatPresence)
  errors : List String
deriving DecidableEq, Repr

/-- gowhatsapp_go_send_typing (whatsmeow_bridge.go lines 199-223): silent
return when the session is absent, the client nil, or the target fails to
parse; otherwise one SendChatPresence call, composing when `typing != 0`,
paused otherwise.  No error is ever reported. -/
def gowhatsapp_go_send_typing (eng : Engine) (reg : Registry) (key : Nat)
    (jidStr : String) (typing : Int) : TypingResult :=
  match lookupAcct reg key with
  | none => ⟨[], []⟩
  | some st =>
    if !st.clientPresent then ⟨[], []⟩
    else
      match eng.parseJID jidStr with
      | none => ⟨[], []⟩
      | some jid =>
        if typing ≠ 0 then ⟨[(jid, ChatPresence.composing)], []⟩
        else ⟨[(jid, ChatPresence.paused)], []⟩

/-- One engine MarkRead call as the code makes it (line 243):
`MarkRead([]types.MessageID{msgID}, chatJID, senderJID, chatJID)`. -/
structure ReadReceipt where
  messageIds : List String
  chat : JID
  sender : JID
  receiptDest : JID
deriving DecidableEq, Repr

/-- gowhatsapp_go_mark_read (whatsmeow_bridge.go lines 225-244): return
with no engine call when the session is absent, the client nil, or the
message id empty; otherwise parse chat and sender addresses discarding the
errors (`j, _ := ParseJID(s)` yields the zero JID on failure) and make
exactly one MarkRead call. -/
def gowhatsapp_go_mark_read (eng : Engine) (reg : Registry) (key : Nat)
    (jidStr msgID senderStr : String) : List ReadReceipt :=
  match lookupAcct reg key with
  | none => []
  | some st =>
    if !st.clientPresent || msgID = "" then []
    else
      let chatJID := (eng.parseJID jidStr).getD emptyJID
      let senderJID := (eng.parseJID senderStr).getD emptyJID
      [⟨[msgID], chatJID, senderJID, chatJID⟩]

/-- The content fields of a received waE2E.Message that handleMessage
inspects (lines 292-310).  `conversation` models GetConversation(), which
yields "" when the field is unset; the Option fields model the presence of
the corresponding sub-message together with its caption / title / text
getter; the Bools model presence of sticker and audio sub-messages. -/
structure WAMessage where
  conversation : String
  extendedText : Option String
  imageCaption : Option String
  videoCaption : Option String
  documentTitle : Option String
  sticker : Bool
  audio : Bool
  reactionText : Option String
deriving DecidableEq, Repr

/-- The text extraction of handleMessage (whatsmeow_bridge.go lines
291-310), an if/else-if chain in source order. -/
def classifyText (m : WAMessage) : String :=
  if m.conversation ≠ "" then m.conversation
  else
    match m.extendedText with
    | some t => t
    | none =>
      match m.imageCaption with
      | some c => "[Image] " ++ c
      | none =>
        match m.videoCaption with
        | some c => "[Video] " ++ c
        | none =>
          match m.documentTitle with
          | some t => "[Document] " ++ t
          | none =>
            if m.sticker then "[Sticker]"
            else if m.audio then "[Voice Message]"
            else
              match m.reactionText with
              | some t => "[Reaction: " ++ t ++ "]"
              | none => "[Unsupported message type]"

/-- The nine classification branches of handleMessage, one per arm of the
chain at lines 292-310. -/
inductive MsgBranch where
  | plain
  | extended
  | image
  | video
  | document
  | sticker
  | voice
  | reaction
  | unsupported
deriving DecidableEq, Repr

/-- Which arm of the chain at lines 292-310 fires, same conditions in the
same order as `classifyText`. -/
def classifyBranch (m : WAMessage) : MsgBranch :=
  if m.conversation ≠ "" then MsgBranch.plain
  else
    match m.extendedText with
    | some _ => MsgBranch.extended
    | none =>
      match m.imageCaption with
      | some _ => MsgBranch.image
      | none =>
        match m.videoCaption with
        | some _ => MsgBranch.video
        | none =>
          match m.documentTitle with
          | some _ => MsgBranch.document
          | none =>
            if m.sticker then MsgBranch.sticker
            else if m.audio then MsgBranch.voice
            else
              match m.reactionText with
              | some _ => MsgBranch.reaction
              | none => MsgBranch.unsupported

/-- The text each branch produces (the right-hand sides of lines 293-309). -/
def branchText (m : WAMessage) : MsgBranch → String
  | MsgBranch.plain => m.conversation
  | MsgBranch.extended => m.extendedText.getD ""
  | MsgBranch.image => "[Image] " ++ m.imageCaption.getD ""
  | MsgBranch.video => "[Video] " ++ m.videoCaption.getD ""
  | MsgBranch.document => "[Document] " ++ m.documentTitle.getD ""
  | MsgBranch.sticker => "[Sticker]"
  | MsgBranch.voice => "[Voice Message]"
  | MsgBranch.reaction => "[Reaction: " ++ m.reactionText.getD "" ++ "]"
  | MsgBranch.unsupported => "[Unsupported message type]"

/-- The metadata of a received message (v.Info) that handleMessage copies
outward (lines 316-329). -/
structure MessageInfo where
  sender : String
  chat : String
  id : String
  pushName : String
  timestamp : Int
  isFromMe : Bool
  isGroup : Bool
deriving DecidableEq, Repr

/-- The bridge_receive_message call as handleMessage makes it
(lines 331-332). -/
structure ReceivedEnvelope where
  senderJID : String
  chatJID : String
  text : String
  msgID : String
  pushName : String
  timestamp : Int
  fromMe : Bool
  isGroup : Bool
deriving DecidableEq, Repr

/-- handleMessage (whatsmeow_bridge.go lines 289-339): classify the
content; when the resulting text is empty return without an outward call
(line 312-314); otherwise make exactly one bridge_receive_message call. -/
def handleMessage (info : MessageInfo) (m : WAMessage) : Option ReceivedEnvelope :=
  let text := classifyText m
  if text = "" then none
  else some ⟨info.sender, info.chat, text, info.id, info.pushName,
             info.timestamp, info.isFromMe, info.isGroup⟩

/-- One event of the QR pairing channel (whatsmeow.QRChannelItem): the
event tag string and the code payload. -/
structure QREvent where
  event : String
  code : String
deriving DecidableEq, Repr

/-- The outward calls the pairing consumer can make. -/
inductive OutwardCall where
  | showQRCode (code : String)
  | connected
  | errorMsg (msg : String)
deriving DecidableEq, Repr

/-- The switch body of the pairing consumer goroutine (lines 126-135):
"code" → bridge_show_qr_code, "success" → bridge_connected, "timeout" →
reportError, anything else ignored. -/
def pairingConsumerStep (evt : QREvent) : List OutwardCall :=
  if evt.event = "code" then [OutwardCall.showQRCode evt.code]
  else if evt.event = "success" then [OutwardCall.connected]
  else if evt.event = "timeout" then
    [OutwardCall.errorMsg "QR code timed out — reconnect to retry"]
  else []

/-- The pairing consumer goroutine (whatsmeow_bridge.go lines 124-137):
`for evt := range qrChan` drains the channel until the engine closes it.
The first argument records whether the account's cancellation token has
been signalled (state.cancel, called by logout at line 161); the loop body
never consults it — state.ctx is read nowhere, and the channel itself was
requested with the non-cancellable background context (line 114) — so the
events still delivered by the channel are forwarded regardless. -/
def pairingConsumer (cancelSignalled : Bool) : List QREvent → List OutwardCall
  | [] => []
  | evt :: rest => pairingConsumerStep evt ++ pairingConsumer cancelSignalled rest

/-- The atomic steps of a command-facade call, for reasoning about what
runs while the `mu` mutex is held. -/
inductive Step where
  | lock
  | unlock
  | mapRead
  | mapInsert
  | mapDelete
  | storeCall (name : String)
  | engineCall (name : String)
deriving DecidableEq, Repr

/-- The step trace of gowhatsapp_go_login.  `mu.Lock()` at line 65 with
`defer mu.Unlock()` at line 66: the unlock runs when the function returns,
so every step of the body — including sqlstore.New, GetFirstDevice,
GetQRChannel and Connect — executes with the lock held. -/
def loginTrace (reg : Registry) (env : LoginEnv) (key : Nat) : List Step :=
  Step.lock :: Step.mapRead ::
    (if (lookupAcct reg key).isSome then [Step.unlock]
     else Step.storeCall "sqlstore.New" ::
       (if !env.storeOpenOk then [Step.unlock]
        else Step.storeCall "GetFirstDevice" ::
          (if !env.deviceFetchOk then [Step.unlock]
           else Step.mapInsert ::
             (if !env.hasStoredID then
                Step.engineCall "GetQRChannel" ::
                  (if !env.qrChannelOk then [Step.unlock]
                   else [Step.engineCall "Connect", Step.unlock])
              else [Step.engineCall "Connect", Step.unlock]))))

/-- The step trace of gowhatsapp_go_logout (lines 149-164): lock, lookup
and delete under the lock, explicit unlock at line 158, then cancel and
Disconnect outside the lock when a record with a client was found. -/
def logoutTrace (reg : Registry) (key : Nat) : List Step :=
  Step.lock :: Step.mapRead ::
    (match lookupAcct reg key with
     | none => [Step.unlock]
     | some st =>
       Step.mapDelete :: Step.unlock ::
         (if st.clientPresent then [Step.engineCall "Disconnect"] else []))

/-- The step trace of gowhatsapp_go_send_message (lines 166-197): the lock
covers only the map read (lines 172-174); the parse and the engine send
run after the unlock. -/
def sendMessageTrace (eng : Engine) (reg : Registry) (key : Nat)
    (jidStr : String) : List Step :=
  Step.lock :: Step.mapRead :: Step.unlock ::
    (match lookupAcct reg key with
     | none => []
     | some st =>
       if !st.clientPresent then []
       else
         match eng.parseJID jidStr with
         | none => []
         | some _ => [Step.engineCall "SendMessage"])

/-- The step trace of gowhatsapp_go_send_typing (lines 199-223): the lock
covers only the map read (lines 204-206); SendChatPresence runs after the
unlock. -/
def sendTypingTrace (eng : Engine) (reg : Registry) (key : Nat)
    (jidStr : String) : List Step :=
  Step.lock :: Step.mapRead :: Step.unlock ::
    (match lookupAcct reg key with
     | none => []
     | some st =>
       if !st.clientPresent then []
       else
         match eng.parseJID jidStr with
         | none => []
         | some _ => [Step.engineCall "SendChatPresence"])

/-- The step trace of gowhatsapp_go_mark_read (lines 225-244): the lock
covers only the map read (lines 232-234); MarkRead runs after the unlock. -/
def markReadTrace (eng : Engine) (reg : Registry) (key : Nat)
    (msgID : String) : List Step :=
  Step.lock :: Step.mapRead :: Step.unlock ::
    (match lookupAcct reg key with
     | none => []
     | some st =>
       if !st.clientPresent || msgID = "" then []
       else [Step.engineCall "MarkRead"])

/-- The names of the engine calls of a trace that execute while the lock is
held; the second argument is whether the lock is held before the first
step. -/
def engineCallsUnderLockAux : List Step → Bool → List String
  | [], _ => []
  | Step.lock :: rest, _ => engineCallsUnderLockAux rest true
  | Step.unlock :: rest, _ => engineCallsUnderLockAux rest false
  | Step.engineCall n :: rest, held =>
    (if held then [n] else []) ++ engineCallsUnderLockAux rest held
  | _ :: rest, held => engineCallsUnderLockAux rest held

/-- The engine calls of a trace that execute while the lock is held,
starting with the lock free. -/
def engineCallsUnderLock (tr : List Step) : List String :=
  engineCallsUnderLockAux tr false

/-- A login environment whose QR channel request fails after the record was
inserted (store open and device fetch succeed, no stored identity). -/
def envQRFail : LoginEnv := ⟨true, true, false, false, true⟩

/-- A login environment in which every setup step succeeds, on the
new-login (QR) branch. -/
def envAllOk : LoginEnv := ⟨true, true, false, true, true⟩

/-- An engine whose address parser rejects every input. -/
def engineParseNone : Engine :=
  ⟨fun _ => none, fun _ _ => true⟩

/-- A registry well-formedness invariant: every stored record has a non-nil
client.  It holds of every registry reachable through the facade, because
the only insertion (login, line 104) stores the client freshly returned by
whatsmeow.NewClient, which is never nil. -/
def RegistryWF (reg : Registry) : Prop :=
  ∀ p ∈ reg, (p : Nat × accountState).2.clientPresent = true

/-- A successful lookup finds a binding of the list. -/
theorem lookupAcct_mem {reg : Registry} {key : Nat} {st : accountState}
    (h : lookupAcct reg key = some st) : (key, st) ∈ reg := by
  induction reg with
  | nil => simp [lookupAcct] at h
  | cons p rest ih =>
    obtain ⟨k, st0⟩ := p
    by_cases hk : k = key
    · subst hk
      simp [lookupAcct] at h
      simp [h]
    · simp [lookupAcct, hk] at h
      exact List.mem_cons_of_mem _ (ih h)

/-- Claim C1 counterexample: login on a fresh registry with a failing QR
channel request (a setup step after the record insertion at line 104)
reports an error and returns -1, yet the registry afterwards still holds a
Session Record for the id — refuting "the registry afterwards contains no
Session Record for that id". -/
theorem login_qr_failure_keeps_record_cex :
    (gowhatsapp_go_login [] envQRFail 1).ret = -1 ∧
    (gowhatsapp_go_login [] envQRFail 1).errors ≠ [] ∧
    lookupAcct (gowhatsapp_go_login [] envQRFail 1).reg 1 = some ⟨true⟩ := by
  refine ⟨rfl, ?_, rfl⟩
  decide

/-- Claim C1 (amended): for every account id, if a setup step after
session-record creation fails (QR channel request or engine connect), the
login operation reports an error event and returns a non-zero failure, but
the Session Record remains in the registry; only failures before record
creation (store open, device fetch) leave the registry unchanged. -/
theorem login_post_insert_failure_keeps_record (reg : Registry) (env : LoginEnv)
    (key : Nat) (hfree : lookupAcct reg key = none)
    (hstore : env.storeOpenOk = true) (hdev : env.deviceFetchOk = true)
    (hfail : loginSetupOkAfterInsert env = false) :
    (gowhatsapp_go_login reg env key).ret = -1 ∧
    (gowhatsapp_go_login reg env key).errors ≠ [] ∧
    lookupAcct (gowhatsapp_go_login reg env key).reg key = some ⟨true⟩ := by
  obtain ⟨so, dv, hid, qr, co⟩ := env
  simp only [loginSetupOkAfterInsert] at hfail
  simp only at hstore hdev
  subst hstore hdev
  cases hid <;> cases qr <;> cases co <;>
    simp_all [gowhatsapp_go_login, insertAcct, lookupAcct]

/-- Claim C1 witness: the amended theorem applied at a concrete input, a
fresh registry and an environment whose connect step fails. -/
theorem login_post_insert_failure_keeps_record_witness :
    (gowhatsapp_go_login [] ⟨true, true, true, true, false⟩ 2).ret = -1 ∧
    (gowhatsapp_go_login [] ⟨true, true, true, true, false⟩ 2).errors ≠ [] ∧
    lookupAcct (gowhatsapp_go_login [] ⟨true, true, true, true, false⟩ 2).reg 2
      = some ⟨true⟩ :=
  login_post_insert_failure_keeps_record [] ⟨true, true, true, true, false⟩ 2
    rfl rfl rfl rfl

/-- Claim C2: a login issued while a record for the id already exists
returns -1 without touching the registry or reporting anything; and of two
back-to-back logins for the same id on a fresh registry (with the setup
steps succeeding), the first succeeds, the second fails, and the registry
holds exactly one record for the id afterwards. -/
theorem login_second_attempt_already_exists (reg : Registry) (env env2 : LoginEnv)
    (key : Nat) (hfree : lookupAcct reg key = none)
    (hstore : env.storeOpenOk = true) (hdev : env.deviceFetchOk = true)
    (hpost : loginSetupOkAfterInsert env = true) :
    (∀ reg2 : Registry, (lookupAcct reg2 key).isSome = true →
        gowhatsapp_go_login reg2 env2 key = ⟨-1, reg2, []⟩) ∧
    (gowhatsapp_go_login reg env key).ret = 0 ∧
    (gowhatsapp_go_login (gowhatsapp_go_login reg env key).reg env2 key).ret = -1 ∧
    (gowhatsapp_go_login (gowhatsapp_go_login reg env key).reg env2 key).reg
      = (gowhatsapp_go_login reg env key).reg ∧
    countKey (gowhatsapp_go_login (gowhatsapp_go_login reg env key).reg env2 key).reg key
      = countKey reg key + 1 := by
  obtain ⟨so, dv, hid, qr, co⟩ := env
  simp only [loginSetupOkAfterInsert] at hpost
  simp only at hstore hdev
  subst hstore hdev
  have hdup : ∀ reg2 : Registry, (lookupAcct reg2 key).isSome = true →
      gowhatsapp_go_login reg2 env2 key = ⟨-1, reg2, []⟩ := by
    intro reg2 h2
    simp [gowhatsapp_go_login, h2]
  refine ⟨hdup, ?_⟩
  have h1 : lookupAcct (insertAcct reg key ⟨true⟩) key = some ⟨true⟩ := by
    simp [insertAcct, lookupAcct]
  have hcount : countKey (insertAcct reg key ⟨true⟩) key = countKey reg key + 1 := by
    simp [insertAcct, countKey]
  cases hid <;> cases qr <;> cases co <;>
    simp_all [gowhatsapp_go_login, Option.isSome]

/-- Claim C2 witness: the theorem applied at a concrete input, a fresh
registry and an all-succeeding environment. -/
theorem login_second_attempt_already_exists_witness :
    (gowhatsapp_go_login [] envAllOk 1).ret = 0 ∧
    (gowhatsapp_go_login (gowhatsapp_go_login [] envAllOk 1).reg envAllOk 1).ret = -1 ∧
    countKey (gowhatsapp_go_login (gowhatsapp_go_login [] envAllOk 1).reg envAllOk 1).reg 1
      = 1 :=
  ⟨(login_second_attempt_already_exists [] envAllOk envAllOk 1 rfl rfl rfl rfl).2.1,
   (login_second_attempt_already_exists [] envAllOk envAllOk 1 rfl rfl rfl rfl).2.2.1,
   (login_second_attempt_already_exists [] envAllOk envAllOk 1 rfl rfl rfl rfl).2.2.2.2⟩

/-- Claim C3 (code bug): logout removes the record and signals the
cancellation token, but the pairing consumer never observes it — a pending
"code" event is still forwarded outward afterwards.  Evaluated at the
failing input: account 1 with one record, one pending QR code event. -/
theorem pairing_consumer_forwards_after_cancel :
    (gowhatsapp_go_logout (insertAcct [] 1 ⟨true⟩) 1).cancelSignalled = true ∧
    lookupAcct (gowhatsapp_go_logout (insertAcct [] 1 ⟨true⟩) 1).reg 1 = none ∧
    pairingConsumer true [⟨"code", "2@abc123,def456"⟩]
      = [OutwardCall.showQRCode "2@abc123,def456"] := by
  refine ⟨rfl, rfl, ?_⟩
  simp [pairingConsumer, pairingConsumerStep]

/-- Claim C4: message classification is total and deterministic — for every
combination of populated content fields exactly one branch fires, each
branch characterized by its priority condition (every earlier field absent,
its own present), the produced text is the fired branch's text, and in
particular a message carrying both image content and a non-empty
conversation string takes the plain-text branch. -/
theorem classifyBranch_characterization (m : WAMessage) :
    (classifyBranch m = MsgBranch.plain ↔ m.conversation ≠ "") ∧
    (classifyBranch m = MsgBranch.extended ↔
        m.conversation = "" ∧ m.extendedText ≠ none) ∧
    (classifyBranch m = MsgBranch.image ↔
        m.conversation = "" ∧ m.extendedText = none ∧ m.imageCaption ≠ none) ∧
    (classifyBranch m = MsgBranch.video ↔
        m.conversation = "" ∧ m.extendedText = none ∧ m.imageCaption = none ∧
        m.videoCaption ≠ none) ∧
    (classifyBranch m = MsgBranch.document ↔
        m.conversation = "" ∧ m.extendedText = none ∧ m.imageCaption = none ∧
        m.videoCaption = none ∧ m.documentTitle ≠ none) ∧
    (classifyBranch m = MsgBranch.sticker ↔
        m.conversation = "" ∧ m.extendedText = none ∧ m.imageCaption = none ∧
        m.videoCaption = none ∧ m.documentTitle = none ∧ m.sticker = true) ∧
    (classifyBranch m = MsgBranch.voice ↔
        m.conversation = "" ∧ m.extendedText = none ∧ m.imageCaption = none ∧
        m.videoCaption = none ∧ m.documentTitle = none ∧ m.sticker = false ∧
        m.audio = true) ∧
    (classifyBranch m = MsgBranch.reaction ↔
        m.conversation = "" ∧ m.extendedText = none ∧ m.imageCaption = none ∧
        m.videoCaption = none ∧ m.documentTitle = none ∧ m.sticker = false ∧
        m.audio = false ∧ m.reactionText ≠ none) ∧
    (classifyBranch m = MsgBranch.unsupported ↔
        m.conversation = "" ∧ m.extendedText = none ∧ m.imageCaption = none ∧
        m.videoCaption = none ∧ m.documentTitle = none ∧ m.sticker = false ∧
        m.audio = false ∧ m.reactionText = none) ∧
    classifyText m = branchText m (classifyBranch m) := by
  obtain ⟨conv, ext, img, vid, doc, st, au, re⟩ := m
  by_cases hc : conv = "" <;>
    cases ext <;> cases img <;> cases vid <;> cases doc <;>
    cases st <;> cases au <;> cases re <;>
      simp_all [classifyBranch, classifyText, branchText]

/-- Claim C5 counterexample: on the successful new-login path the login
operation executes the GetQRChannel and Connect engine calls while the
exclusion lock is held, refuting "every engine call triggered by an inward
command executes outside the lock". -/
theorem login_engine_calls_under_lock_cex :
    engineCallsUnderLock (loginTrace [] envAllOk 1) = ["GetQRChannel", "Connect"] := by
  decide

/-- Claim C5 (amended): for every registry — in particular with a session
present for the id — logout, send-message, send-typing and mark-read
execute no engine call while the exclusion lock is held, and when a
session (with client) is present those traces really contain the
Disconnect, SendMessage, SendChatPresence and MarkRead engine calls, which
therefore run outside the lock; the login operation, however, holds the
lock for its whole duration, so its engine calls after record insertion
(the QR channel request on the new-login branch, connect on both branches)
execute while the lock is held. -/
theorem facade_engine_calls_outside_lock (eng : Engine) (key : Nat)
    (jidStr msgID : String) :
    (∀ reg : Registry,
        engineCallsUnderLock (logoutTrace reg key) = [] ∧
        engineCallsUnderLock (sendMessageTrace eng reg key jidStr) = [] ∧
        engineCallsUnderLock (sendTypingTrace eng reg key jidStr) = [] ∧
        engineCallsUnderLock (markReadTrace eng reg key msgID) = []) ∧
    (∀ reg : Registry, ∀ st : accountState,
        lookupAcct reg key = some st → st.clientPresent = true →
        Step.engineCall "Disconnect" ∈ logoutTrace reg key ∧
        (eng.parseJID jidStr ≠ none →
          Step.engineCall "SendMessage" ∈ sendMessageTrace eng reg key jidStr ∧
          Step.engineCall "SendChatPresence" ∈ sendTypingTrace eng reg key jidStr) ∧
        (msgID ≠ "" →
          Step.engineCall "MarkRead" ∈ markReadTrace eng reg key msgID)) ∧
    (∀ reg : Registry, ∀ env : LoginEnv,
        lookupAcct reg key = none → env.storeOpenOk = true →
        env.deviceFetchOk = true →
        engineCallsUnderLock (loginTrace reg env key)
          = (if !env.hasStoredID then
               "GetQRChannel" :: (if env.qrChannelOk then ["Connect"] else [])
             else ["Connect"])) := by
  refine ⟨?_, ?_, ?_⟩
  · intro reg
    refine ⟨?_, ?_, ?_, ?_⟩
    · cases h : lookupAcct reg key
      · simp [logoutTrace, h, engineCallsUnderLock, engineCallsUnderLockAux]
      · simp [logoutTrace, h, engineCallsUnderLock, engineCallsUnderLockAux]
        split <;> simp [engineCallsUnderLockAux]
    · cases h : lookupAcct reg key
      · simp [sendMessageTrace, h, engineCallsUnderLock, engineCallsUnderLockAux]
      · cases hp : eng.parseJID jidStr <;>
          simp [sendMessageTrace, h, hp, engineCallsUnderLock,
            engineCallsUnderLockAux] <;>
          split <;> simp [engineCallsUnderLockAux]
    · cases h : lookupAcct reg key
      · simp [sendTypingTrace, h, engineCallsUnderLock, engineCallsUnderLockAux]
      · cases hp : eng.parseJID jidStr <;>
          simp [sendTypingTrace, h, hp, engineCallsUnderLock,
            engineCallsUnderLockAux] <;>
          split <;> simp [engineCallsUnderLockAux]
    · cases h : lookupAcct reg key
      · simp [markReadTrace, h, engineCallsUnderLock, engineCallsUnderLockAux]
      · simp [markReadTrace, h, engineCallsUnderLock, engineCallsUnderLockAux]
        split <;> simp [engineCallsUnderLockAux]
  · intro reg st hlk hcl
    refine ⟨?_, ?_, ?_⟩
    · simp [logoutTrace, hlk, hcl]
    · intro hp
      cases hps : eng.parseJID jidStr
      · exact absurd hps hp
      · constructor
        · simp [sendMessageTrace, hlk, hcl, hps]
        · simp [sendTypingTrace, hlk, hcl, hps]
    · intro hm
      simp [markReadTrace, hlk, hcl, hm]
  · intro reg env hfree hstore hdev
    obtain ⟨so, dv, hid, qr, co⟩ := env
    simp only at hstore hdev
    subst hstore hdev
    cases hid <;> cases qr <;> cases co <;>
      simp_all [loginTrace, engineCallsUnderLock, engineCallsUnderLockAux]

/-- An engine whose address parser accepts every input. -/
def engineParseAll : Engine :=
  ⟨fun s => some ⟨s, "s.whatsapp.net"⟩, fun _ _ => true⟩

/-- Claim C5 witness: the amended theorem applied at a registry holding a
session for id 1 and an engine that parses the target — the four traces
contain their engine calls, none under the lock — and, for login, at the
empty registry with an all-succeeding new-login environment. -/
theorem facade_engine_calls_outside_lock_witness :
    (engineCallsUnderLock (logoutTrace [(1, ⟨true⟩)] 1) = [] ∧
     engineCallsUnderLock (sendMessageTrace engineParseAll [(1, ⟨true⟩)] 1 "x") = [] ∧
     engineCallsUnderLock (sendTypingTrace engineParseAll [(1, ⟨true⟩)] 1 "x") = [] ∧
     engineCallsUnderLock (markReadTrace engineParseAll [(1, ⟨true⟩)] 1 "m") = []) ∧
    Step.engineCall "Disconnect" ∈ logoutTrace [(1, ⟨true⟩)] 1 ∧
    Step.engineCall "SendMessage" ∈ sendMessageTrace engineParseAll [(1, ⟨true⟩)] 1 "x" ∧
    Step.engineCall "SendChatPresence" ∈ sendTypingTrace engineParseAll [(1, ⟨true⟩)] 1 "x" ∧
    Step.engineCall "MarkRead" ∈ markReadTrace engineParseAll [(1, ⟨true⟩)] 1 "m" ∧
    engineCallsUnderLock (loginTrace [] envAllOk 1) = ["GetQRChannel", "Connect"] := by
  have T := facade_engine_calls_outside_lock engineParseAll 1 "x" "m"
  refine ⟨T.1 [(1, ⟨true⟩)], ?_, ?_, ?_, ?_, ?_⟩
  · exact (T.2.1 [(1, ⟨true⟩)] ⟨true⟩ rfl rfl).1
  · exact ((T.2.1 [(1, ⟨true⟩)] ⟨true⟩ rfl rfl).2.1 (by decide)).1
  · exact ((T.2.1 [(1, ⟨true⟩)] ⟨true⟩ rfl rfl).2.1 (by decide)).2
  · exact (T.2.1 [(1, ⟨true⟩)] ⟨true⟩ rfl rfl).2.2 (by decide)
  · exact (T.2.2 [] envAllOk rfl rfl rfl).trans (by decide)

/-- Claim C6: SendMessage fails with -1 (no engine call, no error report)
when no session exists; with a session whose target fails to parse it
returns -1, reports an error and makes no engine call; otherwise it makes
exactly one engine send of that target and text and returns 0 iff the
engine reported success. -/
theorem send_message_outcomes (eng : Engine) (reg : Registry) (key : Nat)
    (jidStr text : String) :
    (lookupAcct reg key = none →
      gowhatsapp_go_send_message eng reg key jidStr text = ⟨-1, [], []⟩) ∧
    (∀ st, lookupAcct reg key = some st → st.clientPresent = true →
      eng.parseJID jidStr = none →
      (gowhatsapp_go_send_message eng reg key jidStr text).ret = -1 ∧
      (gowhatsapp_go_send_message eng reg key jidStr text).errors ≠ [] ∧
      (gowhatsapp_go_send_message eng reg key jidStr text).engineSends = []) ∧
    (∀ st jid, lookupAcct reg key = some st → st.clientPresent = true →
      eng.parseJID jidStr = some jid →
      (gowhatsapp_go_send_message eng reg key jidStr text).engineSends
        = [(jid, text)] ∧
      ((gowhatsapp_go_send_message eng reg key jidStr text).ret = 0 ↔
        eng.sendMessageOk jid text = true)) := by
  refine ⟨?_, ?_, ?_⟩
  · intro h
    simp [gowhatsapp_go_send_message, h]
  · intro st hlk hcl hp
    simp [gowhatsapp_go_send_message, hlk, hcl, hp]
  · intro st jid hlk hcl hp
    cases hs : eng.sendMessageOk jid text <;>
      simp [gowhatsapp_go_send_message, hlk, hcl, hp, hs]

/-- Claim C7: a received message event produces no outward
bridge_receive_message call exactly when its classification yields the
empty text. -/
theorem handleMessage_none_iff_empty_text (info : MessageInfo) (m : WAMessage) :
    handleMessage info m = none ↔ classifyText m = "" := by
  by_cases h : classifyText m = "" <;> simp [handleMessage, h]

/-- Claim C8: SendTyping never reports an error; it makes no engine call
when no session exists or when the target fails to parse; otherwise it
sends exactly one chat presence, composing iff the flag is non-zero and
paused otherwise. -/
theorem send_typing_best_effort (eng : Engine) (reg : Registry) (key : Nat)
    (jidStr : String) (typing : Int) :
    (gowhatsapp_go_send_typing eng reg key jidStr typing).errors = [] ∧
    (lookupAcct reg key = none →
      (gowhatsapp_go_send_typing eng reg key jidStr typing).presenceCalls = []) ∧
    (∀ st, lookupAcct reg key = some st → st.clientPresent = true →
      eng.parseJID jidStr = none →
      (gowhatsapp_go_send_typing eng reg key jidStr typing).presenceCalls = []) ∧
    (∀ st jid, lookupAcct reg key = some st → st.clientPresent = true →
      eng.parseJID jidStr = some jid →
      (gowhatsapp_go_send_typing eng reg key jidStr typing).presenceCalls
        = [(jid, if typing ≠ 0 then ChatPresence.composing
                 else ChatPresence.paused)]) := by
  refine ⟨?_, ?_, ?_, ?_⟩
  · cases h : lookupAcct reg key
    · simp [gowhatsapp_go_send_typing, h]
    · cases hp : eng.parseJID jidStr <;>
        by_cases ht : typing = 0 <;>
        simp_all [gowhatsapp_go_send_typing] <;>
        split <;> simp_all
  · intro h
    simp [gowhatsapp_go_send_typing, h]
  · intro st hlk hcl hp
    simp [gowhatsapp_go_send_typing, hlk, hcl, hp]
  · intro st jid hlk hcl hp
    by_cases ht : typing = 0 <;>
      simp [gowhatsapp_go_send_typing, hlk, hcl, hp, ht]

/-- Claim C9: on a well-formed registry (every record's client non-nil, as
login guarantees), MarkRead makes no engine call iff the message id is
empty or no session exists for the id; otherwise it forwards exactly one
read-receipt request carrying exactly that message id. -/
theorem mark_read_noop_iff (eng : Engine) (reg : Registry) (key : Nat)
    (jidStr msgID senderStr : String) (hwf : RegistryWF reg) :
    (gowhatsapp_go_mark_read eng reg key jidStr msgID senderStr = [] ↔
      (lookupAcct reg key = none ∨ msgID = "")) ∧
    (∀ st, lookupAcct reg key = some st → msgID ≠ "" →
      (gowhatsapp_go_mark_read eng reg key jidStr msgID senderStr).length = 1 ∧
      ∀ r ∈ gowhatsapp_go_mark_read eng reg key jidStr msgID senderStr,
        r.messageIds = [msgID]) := by
  constructor
  · cases hlk : lookupAcct reg key
    · simp [gowhatsapp_go_mark_read, hlk]
    case some st =>
      have hcl : st.clientPresent = true := hwf _ (lookupAcct_mem hlk)
      by_cases hid : msgID = "" <;> simp [gowhatsapp_go_mark_read, hlk, hcl, hid]
  · intro st hlk hid
    have hcl : st.clientPresent = true := hwf _ (lookupAcct_mem hlk)
    simp [gowhatsapp_go_mark_read, hlk, hcl, hid]

/-- Claim C9 witness: the theorem applied at a concrete well-formed
registry of one record, an unparsable chat string and a non-empty message
id. -/
theorem mark_read_noop_iff_witness :
    (gowhatsapp_go_mark_read engineParseNone [(1, ⟨true⟩)] 1 "chat" "" "sender"
        = [] ↔ (lookupAcct [(1, ⟨true⟩)] 1 = none ∨ ("" : String) = "")) ∧
    (∀ st, lookupAcct [(1, ⟨true⟩)] 1 = some st → ("" : String) ≠ "" →
      (gowhatsapp_go_mark_read engineParseNone [(1, ⟨true⟩)] 1 "chat" "" "sender").length
        = 1 ∧
      ∀ r ∈ gowhatsapp_go_mark_read engineParseNone [(1, ⟨true⟩)] 1 "chat" "" "sender",
        r.messageIds = [""]) :=
  mark_read_noop_iff engineParseNone [(1, ⟨true⟩)] 1 "chat" "" "sender"
    (by intro p hp; simp at hp; simp [hp])

/-- Claim C10: with a session present and a non-empty message id, MarkRead
ignores parse failures of the chat and sender addresses: it still forwards
exactly one read-receipt request for the message id, substituting the zero
JID for whichever of the two addresses failed to parse (both in the chat
and in the receipt-destination argument for the chat address). -/
theorem mark_read_parse_failure_zero_jid (eng : Engine) (reg : Registry)
    (key : Nat) (jidStr msgID senderStr : String) (st : accountState)
    (hlk : lookupAcct reg key = some st) (hcl : st.clientPresent = true)
    (hid : msgID ≠ "") :
    ∃ r, gowhatsapp_go_mark_read eng reg key jidStr msgID senderStr = [r] ∧
      r.messageIds = [msgID] ∧
      (eng.parseJID jidStr = none → r.chat = emptyJID ∧ r.receiptDest = emptyJID) ∧
      (eng.parseJID senderStr = none → r.sender = emptyJID) := by
  refine ⟨⟨[msgID], (eng.parseJID jidStr).getD emptyJID,
           (eng.parseJID senderStr).getD emptyJID,
           (eng.parseJID jidStr).getD emptyJID⟩, ?_, rfl, ?_, ?_⟩
  · simp [gowhatsapp_go_mark_read, hlk, hcl, hid]
  · intro h
    simp [h]
  · intro h
    simp [h]

/-- Claim C10 witness: the theorem applied at a concrete registry, an
engine that parses nothing, and both addresses malformed. -/
theorem mark_read_parse_failure_zero_jid_witness :
    ∃ r, gowhatsapp_go_mark_read engineParseNone [(1, ⟨true⟩)] 1
        "unparsable-chat" "MSGID1" "unparsable-sender" = [r] ∧
      r.messageIds = ["MSGID1"] ∧
      (engineParseNone.parseJID "unparsable-chat" = none →
        r.chat = emptyJID ∧ r.receiptDest = emptyJID) ∧
      (engineParseNone.parseJID "unparsable-sender" = none →
        r.sender = emptyJID) :=
  mark_read_parse_failure_zero_jid engineParseNone [(1, ⟨true⟩)] 1
    "unparsable-chat" "MSGID1" "unparsable-sender" ⟨true⟩ rfl rfl (by decide)

end WhatsmeowBridge
